import Mathlib

/-!
Verification development for the CheckIntAPI service (`src/main.py`).

The Python program is a Flask app orchestrating: image compositing (PIL +
rembg), asset upload and job submission to a ComfyUI instance, a blocking
WebSocket wait for the job-completion event, and an FTP publish of the final
image.  This file gives a shallow embedding: every external effect (HTTP
responses from ComfyUI, the sequence of WebSocket frames, the FTP transfer
outcome, environment configuration) is an explicit input, and the handler and
its helpers become total Lean functions over those inputs.
-/

set_option autoImplicit false

/-- RGBA pixel value (red, green, blue, alpha). -/
abbrev Pix := Nat × Nat × Nat × Nat

/-- A raster image: pixel dimensions plus a pixel function.  Mirrors a PIL
image to the extent the claims need (the claims about compositing concern
dimensions and clipping, not resampled colour values). -/
structure Img where
  width : Nat
  height : Nat
  px : Nat → Nat → Pix

/-- Model of `foreground_no_bg.resize((new_w, new_h), LANCZOS)`: the result
has exactly the requested dimensions.  The LANCZOS resampling kernel is
abstracted by nearest sampling; no claim depends on resampled colour values. -/
def resizeImg (img : Img) (w h : Nat) : Img where
  width := w
  height := h
  px := fun x y => img.px (x * img.width / w) (y * img.height / h)

/-- Model of `background_image.paste(resized_foreground, position,
resized_foreground)` (src/main.py line 188).  PIL pastes into the target at a
possibly negative offset, clipping the parts of the source that fall outside
the canvas, and keeps the target dimensions.  The RGBA-mask blending is
modelled as binary transparency; the claims proved below depend only on the
dimensions and the clipping geometry. -/
def pasteImg (base fg : Img) (pos : Int × Int) : Img where
  width := base.width
  height := base.height
  px := fun x y =>
    let fx : Int := (x : Int) - pos.1
    let fy : Int := (y : Int) - pos.2
    if 0 ≤ fx ∧ fx < (fg.width : Int) ∧ 0 ≤ fy ∧ fy < (fg.height : Int) then
      let p := fg.px fx.toNat fy.toNat
      if p.2.2.2 = 0 then base.px x y else p
    else base.px x y

/-- The compositing stage of `merge_images` (src/main.py lines 167-188):
remove the foreground background (`rembg.remove`, passed in as an opaque
function `rm`), rescale the result to the background width preserving aspect
ratio, and paste it bottom-aligned and horizontally centred onto the
background.  Returns `none` when the background-removed foreground has zero
width, where Python raises `ZeroDivisionError` at
`aspect_ratio = fg_height / fg_width`.  Python computes
`int(new_foreground_width * aspect_ratio)` through IEEE-754 binary64 division
and multiplication; here that value is modelled by its exact-arithmetic
counterpart, truncated division `W * h / w` on naturals (the dimension claims
proved below do not depend on which rounded value is used). -/
def composite_images (rm : Img → Img) (fg bg : Img) : Option Img :=
  let foreground_no_bg := rm fg
  if foreground_no_bg.width = 0 then none
  else
    let new_foreground_width := bg.width
    let new_foreground_height :=
      new_foreground_width * foreground_no_bg.height / foreground_no_bg.width
    let resized_foreground := resizeImg foreground_no_bg new_foreground_width new_foreground_height
    let pos_x := Int.fdiv ((bg.width : Int) - (new_foreground_width : Int)) 2
    let pos_y := (bg.height : Int) - (new_foreground_height : Int)
    some (pasteImg bg resized_foreground (pos_x, pos_y))

/-- One entry of the `images` list inside an `executed` event
(`first_image_data` in src/main.py lines 105-110). -/
structure ImageDesc where
  filename : String
  subfolder : String
  type : String
deriving DecidableEq, Repr

/-- The `output` object of an `executed` event. -/
structure OutputData where
  images : List ImageDesc
deriving DecidableEq, Repr

/-- The `data` object of a WebSocket event. -/
structure MsgData where
  prompt_id : String
  output : OutputData
deriving DecidableEq, Repr

/-- A parsed WebSocket JSON message as read in src/main.py lines 96-100. -/
structure Msg where
  type : String
  data : MsgData
deriving DecidableEq, Repr

/-- One outcome of `ws.recv()` in the receive loop (src/main.py line 94):
a binary frame (`out` not a `str`, skipped), a well-formed text frame parsed
into a message, or an event that raises an exception (a `recv` failure or a
text frame whose JSON decoding / field access raises), carrying the exception
text. -/
inductive Incoming where
  | binary
  | text (m : Msg)
  | raise (e : String)
deriving DecidableEq, Repr

/-- Local final-image storage (`FINAL_IMAGES_DIR`): filename to file bytes. -/
abbrev Store := List (String × List Nat)

/-- Look a filename up in a local store. -/
def storeLookup : Store → String → Option (List Nat)
  | [], _ => none
  | (k, v) :: rest, fn => if k = fn then some v else storeLookup rest fn

/-- Write a file: create or truncate-and-overwrite (src/main.py lines 115-116). -/
def storeWrite (st : Store) (fn : String) (content : List Nat) : Store :=
  (fn, content) :: st.filter (fun p => p.1 ≠ fn)

/-- Outcome of the watcher's receive loop over a finite prefix of the frame
sequence: the function returned a value, an exception propagated out of the
loop, or every supplied frame was consumed without exiting, i.e. the watcher
is still blocked in `ws.recv()`. -/
inductive WatchResult where
  | returned (r : Option String)
  | raised (e : String)
  | blocked
deriving DecidableEq, Repr

/-- The `while True` receive loop of `get_final_image_path_from_websocket`
(src/main.py lines 93-120), run against an explicit list of incoming frames.
`fetch` models `get_image_from_comfyui` (filename, subfolder, type → bytes or
`None` on a request error); on a fetched truthy (nonempty) byte string the
file is written to the final-image store and the filename returned.  A falsy
fetch result (`None` or empty bytes, `if image_content:` line 112) falls
through to the next loop iteration. -/
def recvLoop (pid : String) (fetch : String → String → String → Option (List Nat)) :
    List Incoming → Store → WatchResult × Store
  | [], st => (.blocked, st)
  | .raise e :: _, st => (.raised e, st)
  | .binary :: rest, st => recvLoop pid fetch rest st
  | .text m :: rest, st =>
    if m.type = "executed" ∧ m.data.prompt_id = pid then
      match m.data.output.images with
      | [] => (.returned none, st)
      | d :: _ =>
        match fetch d.filename d.subfolder d.type with
        | some content =>
          if content ≠ [] then
            (.returned (some d.filename), storeWrite st d.filename content)
          else recvLoop pid fetch rest st
        | none => recvLoop pid fetch rest st
    else recvLoop pid fetch rest st

/-- Result of one call to the completion watcher: the loop outcome, the
final-image store after the call, and whether the WebSocket connection opened
at line 88 has been closed. -/
structure WatcherCall where
  result : WatchResult
  store : Store
  wsClosed : Bool
deriving Repr

/-- The completion watcher `get_final_image_path_from_websocket` (src/main.py
lines 86-123).  The `try`/`finally` closes the connection both when the loop
returns and when an exception propagates; while the loop is still blocked in
`ws.recv()` the connection is, of course, still open. -/
def get_final_image_path_from_websocket (pid : String)
    (fetch : String → String → String → Option (List Nat))
    (frames : List Incoming) (st : Store) : WatcherCall :=
  match recvLoop pid fetch frames st with
  | (.returned r, st2) => ⟨.returned r, st2, true⟩
  | (.raised e, st2) => ⟨.raised e, st2, true⟩
  | (.blocked, st2) => ⟨.blocked, st2, false⟩

/-- Python truthiness of an optional environment string: `os.getenv` yields
`None` when unset, and both `None` and the empty string are falsy. -/
def pyTruthyStr : Option String → Bool
  | none => false
  | some s => !s.isEmpty

/-- The FTP configuration read from the environment (src/main.py lines 35-38). -/
structure FtpConfig where
  FTP_HOST : Option String
  FTP_USER : Option String
  FTP_PASS : Option String
  FTP_TARGET_DIR : Option String
deriving DecidableEq, Repr

/-- The `all([FTP_HOST, FTP_USER, FTP_PASS, FTP_TARGET_DIR])` truthiness check
of src/main.py lines 128-133. -/
def ftpConfigOk (cfg : FtpConfig) : Bool :=
  pyTruthyStr cfg.FTP_HOST && pyTruthyStr cfg.FTP_USER &&
    pyTruthyStr cfg.FTP_PASS && pyTruthyStr cfg.FTP_TARGET_DIR

/-- The publisher `upload_final_image_to_ftp` (src/main.py lines 125-149).
`transfer` models the entire `try` body (FTP login, `cwd`, local file open,
`storbinary`, `quit`): `Except.error e` is an exception with text `e`, caught
at line 147 and converted to `(False, str(e))`.  The function's total return
type `Bool × String` reflects that no exception escapes it. -/
def upload_final_image_to_ftp (cfg : FtpConfig) (transfer : Except String Unit)
    (file_path filename : String) : Bool × String :=
  if !(ftpConfigOk cfg) then
    (false, "FTP configuration is missing. Please check your .env file")
  else
    match transfer with
    | .ok _ => (true, "File \x27" ++ filename ++ "\x27 uploaded to FTP successfully!")
    | .error e => (false, e)

/-- One node of the ComfyUI workflow graph (`CheckInt.json` is external
configuration, not part of the repository): its `inputs` object, modelled as
a string-keyed association list of string values — the two mutated slots are
both strings. -/
structure WorkflowNode where
  inputs : List (String × String)
deriving DecidableEq, Repr

/-- A workflow graph: node id to node. -/
abbrev Workflow := List (String × WorkflowNode)

/-- Assignment `inputs[key] = v` on a Python dict: overwrite if present,
otherwise add. -/
def setInputValue : List (String × String) → String → String → List (String × String)
  | [], k, v => [(k, v)]
  | (k0, v0) :: rest, k, v =>
    if k0 = k then (k, v) :: rest else (k0, v0) :: setInputValue rest k v

/-- The mutation `prompt_workflow[node_id]["inputs"][key] = v` (src/main.py
lines 208 and 211): `none` when the node id is absent, where Python raises
`KeyError`. -/
def setNodeInput : Workflow → String → String → String → Option Workflow
  | [], _, _, _ => none
  | (nid, node) :: rest, target, key, v =>
    if nid = target then some ((nid, ⟨setInputValue node.inputs key v⟩) :: rest)
    else
      match setNodeInput rest target key v with
      | some rest2 => some ((nid, node) :: rest2)
      | none => none

/-- Text of `str(KeyError(k))`, which wraps the key in single quotes. -/
def keyErrorText (k : String) : String :=
  "\x27" ++ k ++ "\x27"

/-- Field lookup in a JSON-object-as-association-list. -/
def lookupField : List (String × String) → String → Option String
  | [], _ => none
  | (k, v) :: rest, key => if k = key then some v else lookupField rest key

/-- Combined check `not response or field not in response` used at src/main.py
lines 198 and 215: fails for a `None` response, an empty dict (falsy), and a
dict missing the field — exactly the cases where the lookup yields nothing. -/
def optLookup (resp : Option (List (String × String))) (key : String) : Option String :=
  match resp with
  | none => none
  | some kvs => lookupField kvs key

/-- An uploaded multipart file: its client-supplied filename and the outcome
of `Image.open` on its stream (`Except.error e` models a decoding exception
with text `e`). -/
structure UploadFile where
  filename : String
  image : Except String Img

/-- The inbound multipart request: the two file fields, each absent or
present. -/
structure Req where
  foreground_file : Option UploadFile
  background_file : Option UploadFile

/-- All external-world inputs consumed by one `merge_images` request:
the behaviour of `rembg.remove`, the ComfyUI responses (as functions of what
is sent), the workflow-file load outcome, the generated uuid, the WebSocket
frame sequence, the `/view` fetch behaviour, the FTP configuration and
transfer outcome, the public URL base, and the request timestamp. -/
structure Env where
  removeBg : Img → Img
  uploadResp : String → String → Option (List (String × String))
  workflowLoad : Except String Workflow
  clientId : String
  queueResp : Workflow → String → Option (List (String × String))
  fetch : String → String → String → Option (List Nat)
  frames : List Incoming
  ftp : FtpConfig
  ftpTransfer : Except String Unit
  basePublicUrl : Option String
  timestamp : String

/-- Constants of src/main.py lines 22-33. -/
def OUTPUT_DIR : String := "merged_images"

/-- Directory that holds the fetched final images (src/main.py line 25). -/
def FINAL_IMAGES_DIR : String := "final_images"

/-- Node id whose `image` input receives the uploaded composite. -/
def LOAD_IMAGE_NODE_ID : String := "16"

/-- Node id whose `filename_prefix` input receives the output name prefix. -/
def SAVE_IMAGE_NODE_ID : String := "35"

/-- Name `merged_result_<timestamp>.png` given to the composite
(src/main.py line 191). -/
def mergedFilename (ts : String) : String :=
  "merged_result_" ++ ts ++ ".png"

/-- Local path of the saved composite (src/main.py line 192). -/
def mergedPath (ts : String) : String :=
  OUTPUT_DIR ++ "/" ++ mergedFilename ts

/-- Result of one request to the `/merge_images` route: an HTTP response
(JSON body as key-value pairs, plus status), or no response at all because
the handler is still blocked in the watcher's receive loop. -/
inductive HandlerResult where
  | response (body : List (String × String)) (status : Nat)
  | hang
deriving DecidableEq, Repr

/-- The blanket `except Exception` response of src/main.py lines 251-258
(note the trailing space in the error string, present in the source). -/
def internalErrorResponse (e : String) : HandlerResult :=
  .response [("error", "An internal server error occurred "), ("details", e)] 500

/-- The `/merge_images` handler (src/main.py lines 152-258), as a function of
the request, the external world `env`, and the current final-image store.
Returns the HTTP outcome and the final-image store after the request.  Every
`return jsonify(...), code` of the source appears as a `.response body code`;
exceptions raised inside the big `try` land in `internalErrorResponse`. -/
def merge_images (req : Req) (env : Env) (store : Store) : HandlerResult × Store :=
  match req.foreground_file, req.background_file with
  | none, _ => (.response [("error", "Missing one or both files in the request")] 400, store)
  | some _, none => (.response [("error", "Missing one or both files in the request")] 400, store)
  | some fgf, some bgf =>
    if fgf.filename = "" ∨ bgf.filename = "" then
      (.response [("error", "One or both files are not selected")] 400, store)
    else
      match fgf.image with
      | .error e => (internalErrorResponse e, store)
      | .ok fgI =>
        match bgf.image with
        | .error e => (internalErrorResponse e, store)
        | .ok bgI =>
          match composite_images env.removeBg fgI bgI with
          | none => (internalErrorResponse "division by zero", store)
          | some _merged =>
            match optLookup (env.uploadResp (mergedPath env.timestamp)
                (mergedFilename env.timestamp)) "name" with
            | none =>
              (.response [("error", "Failed to upload merge image to ComfyUI")] 500, store)
            | some comfyui_filename =>
              match env.workflowLoad with
              | .error e => (internalErrorResponse e, store)
              | .ok wf =>
                match setNodeInput wf LOAD_IMAGE_NODE_ID "image" comfyui_filename with
                | none => (internalErrorResponse (keyErrorText LOAD_IMAGE_NODE_ID), store)
                | some wf1 =>
                  match setNodeInput wf1 SAVE_IMAGE_NODE_ID "filename_prefix"
                      ("checkint_" ++ env.timestamp) with
                  | none => (internalErrorResponse (keyErrorText SAVE_IMAGE_NODE_ID), store)
                  | some wf2 =>
                    match optLookup (env.queueResp wf2 env.clientId) "prompt_id" with
                    | none =>
                      (.response [("error", "Failed to queue prompt in ComfyUI")] 500, store)
                    | some prompt_id =>
                      match get_final_image_path_from_websocket prompt_id env.fetch
                          env.frames store with
                      | ⟨.raised e, st2, _⟩ => (internalErrorResponse e, st2)
                      | ⟨.blocked, st2, _⟩ => (.hang, st2)
                      | ⟨.returned none, st2, _⟩ =>
                        (.response
                          [("error",
                            "Workflow completed but could not retrived final image from ComfyUI")]
                          500, st2)
                      | ⟨.returned (some final_filename), st2, _⟩ =>
                        if final_filename = "" then
                          (.response
                            [("error",
                              "Workflow completed but could not retrived final image from ComfyUI")]
                            500, st2)
                        else
                          match upload_final_image_to_ftp env.ftp env.ftpTransfer
                              (FINAL_IMAGES_DIR ++ "/" ++ final_filename) final_filename with
                          | (true, _) =>
                            if !(pyTruthyStr env.basePublicUrl) then
                              (.response
                                [("error", "BASE_PUBLIC_URL is not set in .env file")] 500,
                                st2)
                            else
                              (.response
                                [("message", "Workflow complete. File uploaded successfully."),
                                 ("final_image_url",
                                   env.basePublicUrl.getD "" ++ final_filename)] 200,
                                st2)
                          | (false, message) =>
                            (.response
                              [("message",
                                 "Workflow completed, but failed to upload image to FTP server."),
                               ("error", "Could not upload the final image via FTP."),
                               ("final_image_filename", final_filename),
                               ("ftp_error_details", message)] 500,
                              st2)

/-- Result of the `/final_image/<filename>` route: the file's bytes, or a
JSON error response. -/
inductive RouteReply where
  | fileContent (bytes : List Nat)
  | jsonReply (body : List (String × String)) (status : Nat)
deriving DecidableEq, Repr

/-- The `/final_image/<filename>` route (src/main.py lines 260-267):
serve the named file from the final-image store, else a 404 body. -/
def get_final_image (store : Store) (filename : String) : RouteReply :=
  match storeLookup store filename with
  | some bs => .fileContent bs
  | none => .jsonReply [("error", "File not found.")] 404

/-! Helper lemmas about the receive loop and stores. -/

/-- Looking up a filename immediately after writing it finds the content. -/
theorem storeLookup_storeWrite (st : Store) (fn : String) (c : List Nat) :
    storeLookup (storeWrite st fn c) fn = some c := by
  simp [storeWrite, storeLookup]

/-- Whenever the receive loop returns a filename, that file is present in the
final-image store it leaves behind (it was written just before the return,
src/main.py lines 114-120). -/
theorem recvLoop_returned_store (pid : String)
    (fetch : String → String → String → Option (List Nat)) :
    ∀ (frames : List Incoming) (st st2 : Store) (fn : String),
      recvLoop pid fetch frames st = (WatchResult.returned (some fn), st2) →
      ∃ bs, storeLookup st2 fn = some bs := by
  intro frames
  induction frames with
  | nil => intro st st2 fn h; simp [recvLoop] at h
  | cons f rest ih =>
    intro st st2 fn h
    match f with
    | .raise e => simp [recvLoop] at h
    | .binary => exact ih st st2 fn (by simpa [recvLoop] using h)
    | .text m =>
      by_cases hc : m.type = "executed" ∧ m.data.prompt_id = pid
      · rcases himg : m.data.output.images with _ | ⟨d, ds⟩
        · simp only [recvLoop, if_pos hc, himg] at h
          simp at h
        · rcases hf : fetch d.filename d.subfolder d.type with _ | content
          · simp only [recvLoop, if_pos hc, himg, hf] at h
            exact ih st st2 fn h
          · by_cases hce : content = []
            · simp only [recvLoop, if_pos hc, himg, hf] at h
              rw [if_neg (not_not_intro hce)] at h
              exact ih st st2 fn h
            · simp only [recvLoop, if_pos hc, himg, hf, if_pos hce] at h
              rw [Prod.mk.injEq] at h
              obtain ⟨h1, h2⟩ := h
              obtain rfl : d.filename = fn := by
                injection h1 with h1s
                injection h1s
              exact ⟨content, h2 ▸ storeLookup_storeWrite st d.filename content⟩
      · simp only [recvLoop, if_neg hc] at h
        exact ih st st2 fn h

/-! Claim theorems about the completion watcher. -/

/-- C1: every frame that is not a text frame, or whose event type is not
"executed", or whose embedded job id differs from the awaited one, leaves the
receive loop exactly where it was (the watcher keeps blocking on the
remaining frames); and conversely the loop can only return — with any value —
if some received text frame is a matching terminal "executed" event. -/
theorem c1_only_matching_executed_terminates :
    (∀ (pid : String) (fetch : String → String → String → Option (List Nat))
        (f : Incoming) (rest : List Incoming) (st : Store),
        (f = Incoming.binary ∨
          ∃ m, f = Incoming.text m ∧ (m.type ≠ "executed" ∨ m.data.prompt_id ≠ pid)) →
        recvLoop pid fetch (f :: rest) st = recvLoop pid fetch rest st) ∧
    (∀ (pid : String) (fetch : String → String → String → Option (List Nat))
        (frames : List Incoming) (st st2 : Store) (r : Option String),
        recvLoop pid fetch frames st = (WatchResult.returned r, st2) →
        ∃ m, Incoming.text m ∈ frames ∧ m.type = "executed" ∧ m.data.prompt_id = pid) := by
  constructor
  · rintro pid fetch f rest st (rfl | ⟨m, rfl, hm⟩)
    · rfl
    · have hc : ¬(m.type = "executed" ∧ m.data.prompt_id = pid) := by
        rcases hm with h | h <;> exact fun hand => h (by simp [hand.1, hand.2])
      simp only [recvLoop, if_neg hc]
  · intro pid fetch frames
    induction frames with
    | nil => intro st st2 r h; simp [recvLoop] at h
    | cons f rest ih =>
      intro st st2 r h
      match f with
      | .raise e => simp [recvLoop] at h
      | .binary =>
        obtain ⟨m, hmem, hm⟩ := ih st st2 r (by simpa [recvLoop] using h)
        exact ⟨m, List.mem_cons_of_mem _ hmem, hm⟩
      | .text m =>
        by_cases hc : m.type = "executed" ∧ m.data.prompt_id = pid
        · exact ⟨m, List.mem_cons_self _ _, hc.1, hc.2⟩
        · simp only [recvLoop, if_neg hc] at h
          obtain ⟨m2, hmem, hm2⟩ := ih st st2 r h
          exact ⟨m2, List.mem_cons_of_mem _ hmem, hm2⟩

/-- Fetch behaviour used by the concrete witnesses: every output reference
resolves to the one-byte file `[7]`. -/
def wFetch : String → String → String → Option (List Nat) := fun _ _ _ => some [7]

/-- A matching terminal event frame used by the concrete witnesses. -/
def wMsg : Msg := ⟨"executed", ⟨"p1", ⟨[⟨"out.png", "", "output"⟩]⟩⟩⟩

/-- A frame whose event type is "progress", not "executed". -/
def wProgressMsg : Msg := ⟨"progress", ⟨"p1", ⟨[]⟩⟩⟩

/-- Witness for C1 at concrete inputs: a binary frame and a "progress" frame
are both skipped, and a run that returned contains a matching "executed"
frame. -/
theorem c1_witness :
    recvLoop "p1" wFetch [Incoming.binary, Incoming.text wMsg] [] =
      recvLoop "p1" wFetch [Incoming.text wMsg] [] ∧
    recvLoop "p1" wFetch [Incoming.text wProgressMsg] [] =
      recvLoop "p1" wFetch [] [] ∧
    ∃ m, Incoming.text m ∈ [Incoming.text wMsg] ∧
      m.type = "executed" ∧ m.data.prompt_id = "p1" := by
  refine ⟨?_, ?_, ?_⟩
  · exact c1_only_matching_executed_terminates.1 "p1" wFetch Incoming.binary
      [Incoming.text wMsg] [] (Or.inl rfl)
  · exact c1_only_matching_executed_terminates.1 "p1" wFetch (Incoming.text wProgressMsg)
      [] [] (Or.inr ⟨wProgressMsg, rfl, Or.inl (by decide)⟩)
  · exact c1_only_matching_executed_terminates.2 "p1" wFetch [Incoming.text wMsg]
      [] [("out.png", [7])] (some "out.png") (by decide)

/-- C3: a matching "executed" event carrying an empty output-image list makes
the watcher return `None` (src/main.py lines 100-103) — a normal return, not
an exception. -/
theorem c3_empty_output_returns_none (pid : String)
    (fetch : String → String → String → Option (List Nat))
    (m : Msg) (rest : List Incoming) (st : Store)
    (h1 : m.type = "executed") (h2 : m.data.prompt_id = pid)
    (h3 : m.data.output.images = []) :
    recvLoop pid fetch (Incoming.text m :: rest) st = (WatchResult.returned none, st) ∧
    (get_final_image_path_from_websocket pid fetch (Incoming.text m :: rest) st).result =
      WatchResult.returned none := by
  have hl : recvLoop pid fetch (Incoming.text m :: rest) st = (WatchResult.returned none, st) := by
    simp [recvLoop, h1, h2, h3]
  refine ⟨hl, ?_⟩
  unfold get_final_image_path_from_websocket
  rw [hl]

/-- Witness for C3: the concrete empty-output "executed" event returns `None`. -/
theorem c3_witness :
    recvLoop "p1" wFetch [Incoming.text ⟨"executed", ⟨"p1", ⟨[]⟩⟩⟩] [] =
      (WatchResult.returned none, []) ∧
    (get_final_image_path_from_websocket "p1" wFetch
        [Incoming.text ⟨"executed", ⟨"p1", ⟨[]⟩⟩⟩] []).result =
      WatchResult.returned none :=
  c3_empty_output_returns_none "p1" wFetch ⟨"executed", ⟨"p1", ⟨[]⟩⟩⟩ [] [] rfl rfl rfl

/-- C10: on a matching "executed" event with a non-empty image list whose
first reference fails to fetch (`get_image_from_comfyui` returns `None`),
the loop silently continues with the remaining frames (src/main.py lines
105-120: the `if image_content:` guard has no else), so with no further
frames the watcher stays blocked. -/
theorem c10_fetch_failure_keeps_blocking (pid : String)
    (fetch : String → String → String → Option (List Nat))
    (m : Msg) (d : ImageDesc) (ds : List ImageDesc) (rest : List Incoming) (st : Store)
    (h1 : m.type = "executed") (h2 : m.data.prompt_id = pid)
    (h3 : m.data.output.images = d :: ds)
    (h4 : fetch d.filename d.subfolder d.type = none) :
    recvLoop pid fetch (Incoming.text m :: rest) st = recvLoop pid fetch rest st ∧
    recvLoop pid fetch [Incoming.text m] st = (WatchResult.blocked, st) := by
  have hstep : ∀ r : List Incoming,
      recvLoop pid fetch (Incoming.text m :: r) st = recvLoop pid fetch r st := by
    intro r
    simp [recvLoop, h1, h2, h3, h4]
  exact ⟨hstep rest, by rw [hstep []]; rfl⟩

/-- A fetch behaviour that always fails, used by the C10 witness. -/
def wFailFetch : String → String → String → Option (List Nat) := fun _ _ _ => none

/-- Witness for C10: with the failing fetch, the matching terminal event is
consumed without returning and the watcher ends up blocked. -/
theorem c10_witness :
    recvLoop "p1" wFailFetch [Incoming.text wMsg, Incoming.binary] [] =
      recvLoop "p1" wFailFetch [Incoming.binary] [] ∧
    recvLoop "p1" wFailFetch [Incoming.text wMsg] [] = (WatchResult.blocked, []) :=
  c10_fetch_failure_keeps_blocking "p1" wFailFetch wMsg ⟨"out.png", "", "output"⟩ []
    [Incoming.binary] [] rfl rfl rfl rfl

/-- C4: on every exit path of the watcher — value returned or exception
propagated — the WebSocket connection is closed (the `try`/`finally` of
src/main.py lines 92-122); only while still blocked inside `ws.recv()` is it
open. -/
theorem c4_ws_closed_on_exit (pid : String)
    (fetch : String → String → String → Option (List Nat))
    (frames : List Incoming) (st : Store)
    (h : (get_final_image_path_from_websocket pid fetch frames st).result ≠
      WatchResult.blocked) :
    (get_final_image_path_from_websocket pid fetch frames st).wsClosed = true := by
  unfold get_final_image_path_from_websocket at h ⊢
  rcases hr : recvLoop pid fetch frames st with ⟨res, st2⟩
  cases res with
  | returned r => rfl
  | raised e => rfl
  | blocked => rw [hr] at h; simp at h

/-- Witness for C4: a normal return and a raising run both leave the
connection closed. -/
theorem c4_witness :
    (get_final_image_path_from_websocket "p1" wFetch [Incoming.text wMsg] []).wsClosed = true ∧
    (get_final_image_path_from_websocket "p1" wFetch [Incoming.raise "boom"] []).wsClosed
      = true :=
  ⟨c4_ws_closed_on_exit "p1" wFetch [Incoming.text wMsg] [] (by decide),
   c4_ws_closed_on_exit "p1" wFetch [Incoming.raise "boom"] [] (by decide)⟩

/-! Claim theorems about the publisher and the compositor. -/

/-- C5: the publisher is total (return type `Bool × String`, never an
exception).  With any configuration item missing or empty it returns the
fixed configuration message and its result does not depend on the transfer at
all (no network call is consulted); with the configuration present, an
exception raised anywhere in the transfer is converted to `(False, str(e))`. -/
theorem c5_ftp_upload_never_raises :
    (∀ (cfg : FtpConfig) (t1 t2 : Except String Unit) (p fn : String),
        ftpConfigOk cfg = false →
        upload_final_image_to_ftp cfg t1 p fn =
          (false, "FTP configuration is missing. Please check your .env file") ∧
        upload_final_image_to_ftp cfg t1 p fn = upload_final_image_to_ftp cfg t2 p fn) ∧
    (∀ (cfg : FtpConfig) (e : String) (p fn : String),
        ftpConfigOk cfg = true →
        upload_final_image_to_ftp cfg (Except.error e) p fn = (false, e)) := by
  constructor
  · intro cfg t1 t2 p fn h
    constructor <;> simp [upload_final_image_to_ftp, h]
  · intro cfg e p fn h
    simp [upload_final_image_to_ftp, h]

/-- Witness for C5: missing configuration with two different transfer
outcomes gives the fixed message either way, and a transfer exception with
full configuration is converted to its message. -/
theorem c5_witness :
    upload_final_image_to_ftp ⟨none, none, none, none⟩ (Except.error "socket error")
        "final_images/a.png" "a.png" =
      (false, "FTP configuration is missing. Please check your .env file") ∧
    upload_final_image_to_ftp ⟨none, none, none, none⟩ (Except.error "socket error")
        "final_images/a.png" "a.png" =
      upload_final_image_to_ftp ⟨none, none, none, none⟩ (Except.ok ())
        "final_images/a.png" "a.png" ∧
    upload_final_image_to_ftp ⟨some "h", some "u", some "pw", some "dir"⟩
        (Except.error "550 Permission denied") "final_images/a.png" "a.png" =
      (false, "550 Permission denied") := by
  obtain ⟨h1, h2⟩ := c5_ftp_upload_never_raises.1 ⟨none, none, none, none⟩
    (Except.error "socket error") (Except.ok ()) "final_images/a.png" "a.png" (by decide)
  exact ⟨h1, h2, c5_ftp_upload_never_raises.2 ⟨some "h", some "u", some "pw", some "dir"⟩
    "550 Permission denied" "final_images/a.png" "a.png" (by decide)⟩

/-- C9: whenever the compositing stage succeeds, the composited image has
exactly the background's pixel dimensions — `paste` writes into the
background canvas, clipping anything that falls outside, so this also covers
a scaled foreground taller than the background (negative vertical offset). -/
theorem c9_composite_preserves_background_dims (rm : Img → Img) (fg bg out : Img)
    (h : composite_images rm fg bg = some out) :
    out.width = bg.width ∧ out.height = bg.height := by
  unfold composite_images at h
  by_cases h0 : (rm fg).width = 0
  · simp [h0] at h
  · simp only [h0, if_false, Option.some.injEq] at h
    subst h
    exact ⟨rfl, rfl⟩

/-- Foreground used by the dimension witness: 1 wide, 5 tall, opaque. -/
def wFg : Img := ⟨1, 5, fun _ _ => (0, 0, 0, 255)⟩

/-- Background used by the dimension witness: 2 wide, 3 tall. -/
def wBg : Img := ⟨2, 3, fun _ _ => (0, 0, 0, 255)⟩

/-- Witness for C9 at a concrete pair where the scaled foreground (2 × 10) is
taller than the background (2 × 3), so the paste offset is negative
(pos_y = 3 − 10 = −7): the output still has the background's 2 × 3 size. -/
theorem c9_witness :
    (composite_images (fun i => i) wFg wBg).map Img.width = some wBg.width ∧
    (composite_images (fun i => i) wFg wBg).map Img.height = some wBg.height := by
  have h : composite_images (fun i => i) wFg wBg =
      some (pasteImg wBg (resizeImg wFg 2 10) (0, -7)) := rfl
  obtain ⟨h1, h2⟩ := c9_composite_preserves_background_dims (fun i => i) wFg wBg
    (pasteImg wBg (resizeImg wFg 2 10) (0, -7)) h
  rw [h]
  exact ⟨by simp [h1], by simp [h2]⟩

/-! Claim theorems about the request handler. -/

/-- C2: when every pipeline stage succeeds (files present and named, images
decode, compositing succeeds, asset upload returns a name, the workflow loads
and both mutation slots exist, job submission returns a prompt id, the
watcher returns a nonempty filename, and the FTP publish reports success),
the handler returns 200 with `final_image_url` equal to the base URL
concatenated with the final filename when `BASE_PUBLIC_URL` is set, and a 500
whose body differs from every publish-failure body when it is absent. -/
theorem c2_success_url_and_missing_base (req : Req) (env : Env) (store st2 : Store)
    (fgf bgf : UploadFile) (fgI bgI : Img) (nm : String) (wf wf1 wf2 : Workflow)
    (pid fn : String)
    (hfg : req.foreground_file = some fgf)
    (hbg : req.background_file = some bgf)
    (hfn1 : fgf.filename ≠ "")
    (hfn2 : bgf.filename ≠ "")
    (hio1 : fgf.image = Except.ok fgI)
    (hio2 : bgf.image = Except.ok bgI)
    (hcw : (env.removeBg fgI).width ≠ 0)
    (hup : optLookup (env.uploadResp (mergedPath env.timestamp) (mergedFilename env.timestamp))
      "name" = some nm)
    (hwl : env.workflowLoad = Except.ok wf)
    (hn1 : setNodeInput wf LOAD_IMAGE_NODE_ID "image" nm = some wf1)
    (hn2 : setNodeInput wf1 SAVE_IMAGE_NODE_ID "filename_prefix"
      ("checkint_" ++ env.timestamp) = some wf2)
    (hq : optLookup (env.queueResp wf2 env.clientId) "prompt_id" = some pid)
    (hw : recvLoop pid env.fetch env.frames store = (WatchResult.returned (some fn), st2))
    (hfne : fn ≠ "")
    (hftp : (upload_final_image_to_ftp env.ftp env.ftpTransfer
      (FINAL_IMAGES_DIR ++ "/" ++ fn) fn).1 = true) :
    (∀ b, env.basePublicUrl = some b → b ≠ "" →
      merge_images req env store =
        (HandlerResult.response
          [("message", "Workflow complete. File uploaded successfully."),
           ("final_image_url", b ++ fn)] 200, st2)) ∧
    (pyTruthyStr env.basePublicUrl = false →
      merge_images req env store =
        (HandlerResult.response [("error", "BASE_PUBLIC_URL is not set in .env file")] 500,
          st2) ∧
      ∀ (fn2 msg2 : String),
        [("error", "BASE_PUBLIC_URL is not set in .env file")] ≠
          [("message", "Workflow completed, but failed to upload image to FTP server."),
           ("error", "Could not upload the final image via FTP."),
           ("final_image_filename", fn2), ("ftp_error_details", msg2)]) := by
  obtain ⟨img, himg⟩ : ∃ i, composite_images env.removeBg fgI bgI = some i := by
    unfold composite_images
    rw [if_neg hcw]
    exact ⟨_, rfl⟩
  have hcall : get_final_image_path_from_websocket pid env.fetch env.frames store =
      ⟨WatchResult.returned (some fn), st2, true⟩ := by
    unfold get_final_image_path_from_websocket
    rw [hw]
  obtain ⟨msg, hm⟩ : ∃ m2, upload_final_image_to_ftp env.ftp env.ftpTransfer
      (FINAL_IMAGES_DIR ++ "/" ++ fn) fn = (true, m2) :=
    ⟨(upload_final_image_to_ftp env.ftp env.ftpTransfer
        (FINAL_IMAGES_DIR ++ "/" ++ fn) fn).2, by rw [← hftp]⟩
  have hmain : merge_images req env store =
      (if !(pyTruthyStr env.basePublicUrl) then
        (HandlerResult.response [("error", "BASE_PUBLIC_URL is not set in .env file")] 500,
          st2)
      else
        (HandlerResult.response
          [("message", "Workflow complete. File uploaded successfully."),
           ("final_image_url", env.basePublicUrl.getD "" ++ fn)] 200, st2)) := by
    simp only [merge_images, hfg, hbg, hio1, hio2, himg, hup, hwl, hn1, hn2, hq, hcall, hm,
      hfn1, hfn2, hfne, ne_eq, not_false_eq_true, or_self, if_false, ite_false]
  constructor
  · intro b hb hbne
    rw [hmain, hb]
    have hbe : b.isEmpty = false := by
      rcases hbi : b.isEmpty
      · rfl
      · exact absurd ((String.isEmpty_iff b).mp hbi) hbne
    simp [pyTruthyStr, hbe]
  · intro hfalse
    refine ⟨?_, ?_⟩
    · rw [hmain, hfalse]
      simp
    · intro fn2 msg2
      simp

/-- Foreground upload of the handler witnesses. -/
def wFgFile : UploadFile := ⟨"f.png", Except.ok wFg⟩

/-- Background upload of the handler witnesses. -/
def wBgFile : UploadFile := ⟨"b.png", Except.ok wBg⟩

/-- A well-formed request carrying both files. -/
def wReq : Req := ⟨some wFgFile, some wBgFile⟩

/-- A workflow holding both mutation slots. -/
def wWorkflow : Workflow :=
  [("16", ⟨[("image", "x")]⟩), ("35", ⟨[("filename_prefix", "y")]⟩)]

/-- The workflow after the `image` slot mutation. -/
def wWorkflow1 : Workflow :=
  [("16", ⟨[("image", "m.png")]⟩), ("35", ⟨[("filename_prefix", "y")]⟩)]

/-- The workflow after both mutations (timestamp `"t"`). -/
def wWorkflow2 : Workflow :=
  [("16", ⟨[("image", "m.png")]⟩), ("35", ⟨[("filename_prefix", "checkint_t")]⟩)]

/-- An external world in which every stage succeeds. -/
def wEnv : Env where
  removeBg := fun i => i
  uploadResp := fun _ _ => some [("name", "m.png")]
  workflowLoad := .ok wWorkflow
  clientId := "c"
  queueResp := fun _ _ => some [("prompt_id", "p1")]
  fetch := wFetch
  frames := [Incoming.text wMsg]
  ftp := ⟨some "h", some "u", some "pw", some "dir"⟩
  ftpTransfer := .ok ()
  basePublicUrl := some "http://pub/"
  timestamp := "t"

/-- Witness for C2: a fully successful concrete run responds 200 with the
concatenated public URL. -/
theorem c2_witness :
    merge_images wReq wEnv [] =
      (HandlerResult.response
        [("message", "Workflow complete. File uploaded successfully."),
         ("final_image_url", "http://pub/" ++ "out.png")] 200, [("out.png", [7])]) :=
  (c2_success_url_and_missing_base wReq wEnv [] [("out.png", [7])] wFgFile wBgFile wFg wBg
      "m.png" wWorkflow wWorkflow1 wWorkflow2 "p1" "out.png"
      rfl rfl (by decide) (by decide) rfl rfl (by decide) (by decide) rfl (by decide)
      (by decide) (by decide) (by decide) (by decide) (by decide)).1
    "http://pub/" rfl (by decide)

/-- C6: when the generation stage fully succeeds (watcher returns a nonempty
filename) but the FTP publish reports failure, the handler responds 500 with
a body carrying both `final_image_filename` and `ftp_error_details`, and the
fetched final image is still present in local final-image storage, so
`GET /final_image/<filename>` still serves it. -/
theorem c6_publish_failure_keeps_file (req : Req) (env : Env) (store st2 : Store)
    (fgf bgf : UploadFile) (fgI bgI : Img) (nm : String) (wf wf1 wf2 : Workflow)
    (pid fn msg : String)
    (hfg : req.foreground_file = some fgf)
    (hbg : req.background_file = some bgf)
    (hfn1 : fgf.filename ≠ "")
    (hfn2 : bgf.filename ≠ "")
    (hio1 : fgf.image = Except.ok fgI)
    (hio2 : bgf.image = Except.ok bgI)
    (hcw : (env.removeBg fgI).width ≠ 0)
    (hup : optLookup (env.uploadResp (mergedPath env.timestamp) (mergedFilename env.timestamp))
      "name" = some nm)
    (hwl : env.workflowLoad = Except.ok wf)
    (hn1 : setNodeInput wf LOAD_IMAGE_NODE_ID "image" nm = some wf1)
    (hn2 : setNodeInput wf1 SAVE_IMAGE_NODE_ID "filename_prefix"
      ("checkint_" ++ env.timestamp) = some wf2)
    (hq : optLookup (env.queueResp wf2 env.clientId) "prompt_id" = some pid)
    (hw : recvLoop pid env.fetch env.frames store = (WatchResult.returned (some fn), st2))
    (hfne : fn ≠ "")
    (hftp : upload_final_image_to_ftp env.ftp env.ftpTransfer
      (FINAL_IMAGES_DIR ++ "/" ++ fn) fn = (false, msg)) :
    merge_images req env store =
      (HandlerResult.response
        [("message", "Workflow completed, but failed to upload image to FTP server."),
         ("error", "Could not upload the final image via FTP."),
         ("final_image_filename", fn), ("ftp_error_details", msg)] 500, st2) ∧
    lookupField
      [("message", "Workflow completed, but failed to upload image to FTP server."),
       ("error", "Could not upload the final image via FTP."),
       ("final_image_filename", fn), ("ftp_error_details", msg)]
      "final_image_filename" = some fn ∧
    lookupField
      [("message", "Workflow completed, but failed to upload image to FTP server."),
       ("error", "Could not upload the final image via FTP."),
       ("final_image_filename", fn), ("ftp_error_details", msg)]
      "ftp_error_details" = some msg ∧
    ∃ bs, storeLookup st2 fn = some bs ∧ get_final_image st2 fn = RouteReply.fileContent bs := by
  obtain ⟨img, himg⟩ : ∃ i, composite_images env.removeBg fgI bgI = some i := by
    unfold composite_images
    rw [if_neg hcw]
    exact ⟨_, rfl⟩
  have hcall : get_final_image_path_from_websocket pid env.fetch env.frames store =
      ⟨WatchResult.returned (some fn), st2, true⟩ := by
    unfold get_final_image_path_from_websocket
    rw [hw]
  refine ⟨?_, by simp [lookupField], by simp [lookupField], ?_⟩
  · simp only [merge_images, hfg, hbg, hio1, hio2, himg, hup, hwl, hn1, hn2, hq, hcall, hftp,
      hfn1, hfn2, hfne, ne_eq, not_false_eq_true, or_self, if_false, ite_false]
  · obtain ⟨bs, hbs⟩ := recvLoop_returned_store pid env.fetch env.frames store st2 fn hw
    exact ⟨bs, hbs, by unfold get_final_image; rw [hbs]⟩

/-- An external world identical to `wEnv` except that the FTP transfer
raises. -/
def wEnvFtpFail : Env :=
  { wEnv with ftpTransfer := .error "530 Login incorrect" }

/-- Witness for C6: the concrete publish-failure run responds 500 with both
fields and leaves `out.png` retrievable. -/
theorem c6_witness :
    merge_images wReq wEnvFtpFail [] =
      (HandlerResult.response
        [("message", "Workflow completed, but failed to upload image to FTP server."),
         ("error", "Could not upload the final image via FTP."),
         ("final_image_filename", "out.png"),
         ("ftp_error_details", "530 Login incorrect")] 500, [("out.png", [7])]) ∧
    ∃ bs, storeLookup [("out.png", [7])] "out.png" = some bs ∧
      get_final_image [("out.png", [7])] "out.png" = RouteReply.fileContent bs := by
  obtain ⟨h1, _, _, h4⟩ := c6_publish_failure_keeps_file wReq wEnvFtpFail [] [("out.png", [7])]
    wFgFile wBgFile wFg wBg "m.png" wWorkflow wWorkflow1 wWorkflow2 "p1" "out.png"
    "530 Login incorrect"
    rfl rfl (by decide) (by decide) rfl rfl (by decide) (by decide) rfl (by decide)
    (by decide) (by decide) (by decide) (by decide) (by decide)
  exact ⟨h1, h4⟩

/-- C7 (amended): when the asset-upload response is `None` or lacks the
`name` field the handler returns 500 with error message "Failed to upload
merge image to ComfyUI", and when the job-submission response is `None` or
lacks the `prompt_id` field it returns 500 with error message "Failed to
queue prompt in ComfyUI" (src/main.py lines 197-201 and 214-218). -/
theorem c7_amended_stage_error_messages :
    (∀ (req : Req) (env : Env) (store : Store) (fgf bgf : UploadFile) (fgI bgI : Img),
        req.foreground_file = some fgf → req.background_file = some bgf →
        fgf.filename ≠ "" → bgf.filename ≠ "" →
        fgf.image = Except.ok fgI → bgf.image = Except.ok bgI →
        (env.removeBg fgI).width ≠ 0 →
        optLookup (env.uploadResp (mergedPath env.timestamp) (mergedFilename env.timestamp))
          "name" = none →
        merge_images req env store =
          (HandlerResult.response [("error", "Failed to upload merge image to ComfyUI")] 500,
            store)) ∧
    (∀ (req : Req) (env : Env) (store : Store) (fgf bgf : UploadFile) (fgI bgI : Img)
        (nm : String) (wf wf1 wf2 : Workflow),
        req.foreground_file = some fgf → req.background_file = some bgf →
        fgf.filename ≠ "" → bgf.filename ≠ "" →
        fgf.image = Except.ok fgI → bgf.image = Except.ok bgI →
        (env.removeBg fgI).width ≠ 0 →
        optLookup (env.uploadResp (mergedPath env.timestamp) (mergedFilename env.timestamp))
          "name" = some nm →
        env.workflowLoad = Except.ok wf →
        setNodeInput wf LOAD_IMAGE_NODE_ID "image" nm = some wf1 →
        setNodeInput wf1 SAVE_IMAGE_NODE_ID "filename_prefix"
          ("checkint_" ++ env.timestamp) = some wf2 →
        optLookup (env.queueResp wf2 env.clientId) "prompt_id" = none →
        merge_images req env store =
          (HandlerResult.response [("error", "Failed to queue prompt in ComfyUI")] 500,
            store)) := by
  constructor
  · intro req env store fgf bgf fgI bgI hfg hbg hfn1 hfn2 hio1 hio2 hcw hup0
    obtain ⟨img, himg⟩ : ∃ i, composite_images env.removeBg fgI bgI = some i := by
      unfold composite_images
      rw [if_neg hcw]
      exact ⟨_, rfl⟩
    simp only [merge_images, hfg, hbg, hio1, hio2, himg, hup0,
      hfn1, hfn2, ne_eq, not_false_eq_true, or_self, if_false, ite_false]
  · intro req env store fgf bgf fgI bgI nm wf wf1 wf2 hfg hbg hfn1 hfn2 hio1 hio2 hcw hup
      hwl hn1 hn2 hq0
    obtain ⟨img, himg⟩ : ∃ i, composite_images env.removeBg fgI bgI = some i := by
      unfold composite_images
      rw [if_neg hcw]
      exact ⟨_, rfl⟩
    simp only [merge_images, hfg, hbg, hio1, hio2, himg, hup, hwl, hn1, hn2, hq0,
      hfn1, hfn2, ne_eq, not_false_eq_true, or_self, if_false, ite_false]

/-- An external world whose asset-upload response is an empty JSON object. -/
def wEnvNoName : Env :=
  { wEnv with uploadResp := fun _ _ => some [] }

/-- An external world whose job-submission response lacks `prompt_id`. -/
def wEnvNoPromptId : Env :=
  { wEnv with queueResp := fun _ _ => some [("node_errors", "")] }

/-- Counterexample for C7 as stated: at these concrete inputs the handler
does return 500, but the error messages are "Failed to upload merge image to
ComfyUI" and "Failed to queue prompt in ComfyUI", not the claimed strings
"Failed to upload merge image" and "Failed to queue prompt". -/
theorem c7_counterexample :
    merge_images wReq wEnvNoName [] =
      (HandlerResult.response [("error", "Failed to upload merge image to ComfyUI")] 500,
        []) ∧
    "Failed to upload merge image to ComfyUI" ≠ "Failed to upload merge image" ∧
    merge_images wReq wEnvNoPromptId [] =
      (HandlerResult.response [("error", "Failed to queue prompt in ComfyUI")] 500, []) ∧
    "Failed to queue prompt in ComfyUI" ≠ "Failed to queue prompt" :=
  ⟨rfl, by decide, rfl, by decide⟩

/-- Witness for the amended C7 at the two concrete environments. -/
theorem c7_witness :
    merge_images wReq wEnvNoName [] =
      (HandlerResult.response [("error", "Failed to upload merge image to ComfyUI")] 500,
        []) ∧
    merge_images wReq wEnvNoPromptId [] =
      (HandlerResult.response [("error", "Failed to queue prompt in ComfyUI")] 500, []) :=
  ⟨c7_amended_stage_error_messages.1 wReq wEnvNoName [] wFgFile wBgFile wFg wBg
      rfl rfl (by decide) (by decide) rfl rfl (by decide) (by decide),
   c7_amended_stage_error_messages.2 wReq wEnvNoPromptId [] wFgFile wBgFile wFg wBg
      "m.png" wWorkflow wWorkflow1 wWorkflow2
      rfl rfl (by decide) (by decide) rfl rfl (by decide) (by decide) rfl (by decide)
      (by decide) (by decide)⟩
